import Mathlib

/-!
Shallow embedding of the Book_store order-fulfillment pipeline
(`src/services/order_processing.py`, `src/services/inventory_management.py`,
`src/services/shipping_service.py`, `src/api/routes.py`, `src/api/models.py`).

The transactional store is a record of lists of rows; every SQLAlchemy
`db.session.commit()` is modelled by a Boolean parameter saying whether that
commit succeeds (success persists the staged row mutations, failure leaves the
previously committed state in place, matching rollback / an aborted session).
A Python exception escaping the function under study is modelled as a
distinguished `raised` outcome with the committed state unchanged, since no
commit runs after the raise point on those paths.
-/

namespace Bookstore

/-- OrderStatus enum from `src/api/models.py` (PENDING, PROCESSING, SHIPPED,
DELIVERED, CANCELLED). -/
inductive OrderStatus
  | pending
  | processing
  | shipped
  | delivered
  | cancelled
  deriving DecidableEq, Repr

/-- One line item of an order / reservation message: `{book_id, quantity}`.
Quantities come from the JSON payload unvalidated, so they are arbitrary
integers. -/
structure Item where
  book_id : Nat
  quantity : Int
  deriving DecidableEq, Repr

/-- Book row (`src/api/models.py`): only the fields the pipeline reads.
`stock` is an `Integer` column with no non-negativity constraint, hence `Int`. -/
structure Book where
  id : Nat
  stock : Int
  deriving DecidableEq, Repr

/-- Order row (`src/api/models.py`): id, user_id, legacy single book_id,
status, items. -/
structure Order where
  id : Nat
  user_id : Nat
  book_id : Nat
  status : OrderStatus
  items : List Item
  deriving DecidableEq, Repr

/-- User row: only the fields the routes read (id for ownership, is_admin). -/
structure User where
  id : Nat
  is_admin : Bool
  deriving DecidableEq, Repr

/-- Committed database state: the Book, Order and User tables. -/
structure DB where
  books : List Book
  orders : List Order
  users : List User
  deriving DecidableEq, Repr

/-- A status event pushed through `send_order_status_update(user_id, order_id,
status)` in `src/services/notification_service.py`. -/
structure StatusEvent where
  user_id : Nat
  order_id : Nat
  status : OrderStatus
  deriving DecidableEq, Repr

/-- `Book.query.get(book_id)`: first row with the given primary key, if any. -/
def findBook (books : List Book) (bid : Nat) : Option Book :=
  books.find? (fun b => b.id == bid)

/-- `Order.query.get(order_id)`. -/
def findOrder (orders : List Order) (oid : Nat) : Option Order :=
  orders.find? (fun o => o.id == oid)

/-- `User.query.get(user_id)`. -/
def findUser (users : List User) (uid : Nat) : Option User :=
  users.find? (fun u => u.id == uid)

/-- Writing `order.status = st` on the row with id `oid` and committing it. -/
def setOrderStatus (orders : List Order) (oid : Nat) (st : OrderStatus) :
    List Order :=
  orders.map (fun o => if o.id == oid then { o with status := st } else o)

/-- Exceptions the validation loop of `update_inventory` can raise:
`Book.query.get_or_404` aborts with 404 when the book is absent (which makes
the `if not book` check dead code), and `InsufficientStockError` is raised when
`book.stock < item['quantity']`. -/
inductive InvException
  | notFound (book_id : Nat)
  | insufficientStock (book_id : Nat)
  deriving DecidableEq, Repr

/-- First loop of `update_inventory` (`inventory_management.py` lines 29-34):
for each item in order, fetch the book (404 if absent) and raise
`InsufficientStockError` if `book.stock < item['quantity']`.  No mutation
happens, so every item is checked against the original stock; duplicate `book_id`
entries are each compared to the same un-deducted stock. -/
def validationPass (books : List Book) : List Item → Option InvException
  | [] => none
  | it :: rest =>
    match findBook books it.book_id with
    | none => some (InvException.notFound it.book_id)
    | some b =>
      if b.stock < it.quantity then some (InvException.insufficientStock it.book_id)
      else validationPass books rest

/-- Session effect of `book.stock -= item['quantity']` for one item. -/
def deductBook (books : List Book) (bid : Nat) (q : Int) : List Book :=
  books.map (fun b => if b.id == bid then { b with stock := b.stock - q } else b)

/-- Second loop of `update_inventory` (lines 36-39): deduct every item's
quantity from its book.  Fetching the same book twice yields the same session
object, so duplicate `book_id` entries accumulate their deductions. -/
def deductionPass (books : List Book) (items : List Item) : List Book :=
  items.foldl (fun bs it => deductBook bs it.book_id it.quantity) books

/-- How a single `update_inventory` call terminates. -/
inductive InvOutcome
  /-- Deductions and the PROCESSING status committed in one batch; the
  PROCESSING status event was sent. -/
  | ok
  /-- The batch commit failed: `db.session.rollback()` then
  `return jsonify(...), 500` — no CANCELLED transition, no status event. -/
  | commitError
  /-- An exception handler ran: status CANCELLED committed, event sent. -/
  | cancelled
  /-- An exception escaped `update_inventory` itself (absent order makes both
  handlers fail on `order.id`/`order.status`; or the handler's own bare
  `db.session.commit()` raised).  Nothing was committed on these paths. -/
  | raised
  deriving DecidableEq, Repr

/-- Result of one `update_inventory` call: committed state, status events
emitted, termination mode. -/
structure InvResult where
  db : DB
  events : List StatusEvent
  outcome : InvOutcome
  deriving DecidableEq, Repr

/-- `update_inventory(update_data)` from `src/services/inventory_management.py`
on the message `{order_id, items}`.  `batchCommitOk` is the outcome of the
commit at line 44 (deductions + status, guarded by try/rollback);
`cancelCommitOk` is the outcome of the bare commit in the exception handlers
(lines 57/63).  When the order id matches no row, `order` is `None`: the loops
still run on the session but `order.status = ...` (line 41) and the handlers'
`order.id` raise `AttributeError`, so no commit is reached and the exception
escapes with the committed state untouched. -/
def update_inventory (db : DB) (order_id : Nat) (items : List Item)
    (batchCommitOk : Bool) (cancelCommitOk : Bool) : InvResult :=
  match findOrder db.orders order_id with
  | none => ⟨db, [], InvOutcome.raised⟩
  | some o =>
    match validationPass db.books items with
    | some _ =>
      if cancelCommitOk then
        ⟨{ db with orders := setOrderStatus db.orders o.id OrderStatus.cancelled },
          [⟨o.user_id, o.id, OrderStatus.cancelled⟩], InvOutcome.cancelled⟩
      else ⟨db, [], InvOutcome.raised⟩
    | none =>
      let books1 := deductionPass db.books items
      let orders1 := setOrderStatus db.orders o.id OrderStatus.processing
      if batchCommitOk then
        ⟨⟨books1, orders1, db.users⟩,
          [⟨o.user_id, o.id, OrderStatus.processing⟩], InvOutcome.ok⟩
      else ⟨db, [], InvOutcome.commitError⟩

/-- Result of one `order_processor` callback: committed state, events, the
message published to the `inventory_update` queue (if any), whether
`initiate_shipping` was called, and whether an exception escaped the
callback. -/
structure ProcResult where
  db : DB
  events : List StatusEvent
  published : Option (Nat × List Item)
  shippingInitiated : Bool
  raised : Bool
  deriving DecidableEq, Repr

/-- `order_processor(ch, method, properties, body)` from
`src/services/order_processing.py` (lines 42-70) on a message for `order_id`.
It fetches the order with no absence check (`order.status = ...` on `None`
raises `AttributeError` past the callback), sets PROCESSING, commits (bare: a
failure raises past the callback), notifies, publishes
`{order_id: order.id, items: order.items}` to the inventory queue, and then
calls `initiate_shipping(order.id)` unconditionally. -/
def order_processor (db : DB) (order_id : Nat) (commitOk : Bool) : ProcResult :=
  match findOrder db.orders order_id with
  | none => ⟨db, [], none, false, true⟩
  | some o =>
    if commitOk then
      ⟨{ db with orders := setOrderStatus db.orders o.id OrderStatus.processing },
        [⟨o.user_id, o.id, OrderStatus.processing⟩],
        some (o.id, o.items), true, false⟩
    else ⟨db, [], none, false, true⟩

/-- The branch condition at `shipping_service.py` line 45 is
`send_book_email == True`: the function object `send_book_email` compared to
the boolean `True`, which is `False` regardless of what the delivery call at
line 35 returned. -/
def send_book_email_eq_True : Bool := false

/-- Result of one `ship_order` run. -/
structure ShipResult where
  db : DB
  events : List StatusEvent
  raised : Bool
  deriving DecidableEq, Repr

/-- `ship_order(order_id)` from `src/services/shipping_service.py`.
`deliveryOk` is the boolean returned by the call
`send_book_email(user.email, book.pdf_path, book.title)` at line 35; the code
discards it.  If the order, its book, or its user is absent, the subsequent
attribute access raises past the function with nothing committed.
`commit1Ok` / `commit2Ok` are the outcomes of the bare commits after SHIPPED
(line 38) and after the final status (lines 47/51); a bare commit failure
raises with the prior committed state in place. -/
def ship_order (db : DB) (order_id : Nat) (deliveryOk : Bool)
    (commit1Ok : Bool) (commit2Ok : Bool) : ShipResult :=
  match findOrder db.orders order_id with
  | none => ⟨db, [], true⟩
  | some o =>
    match findBook db.books o.book_id, findUser db.users o.user_id with
    | some _, some _ =>
      if commit1Ok then
        let db1 : DB :=
          { db with orders := setOrderStatus db.orders o.id OrderStatus.shipped }
        let finalStatus : OrderStatus :=
          if send_book_email_eq_True then OrderStatus.delivered
          else OrderStatus.cancelled
        if commit2Ok then
          ⟨{ db1 with orders := setOrderStatus db1.orders o.id finalStatus },
            [⟨o.user_id, o.id, OrderStatus.shipped⟩,
             ⟨o.user_id, o.id, finalStatus⟩], false⟩
        else ⟨db1, [⟨o.user_id, o.id, OrderStatus.shipped⟩], true⟩
      else ⟨db, [], true⟩
    | _, _ => ⟨db, [], true⟩

/-- Composition used for the shipping-gating claim: the Order Processor handles
the `order_processing` message and, when it published, the Inventory
Reservation Manager handles the published `inventory_update` message.
`shippingInitiated` records whether the processor launched the shipping task
(it does so before the reservation message is even consumed). -/
structure PipelineResult where
  db : DB
  shippingInitiated : Bool
  invOutcome : Option InvOutcome
  deriving DecidableEq, Repr

/-- One order's trip through `order_processor` followed by `update_inventory`
on the message the processor published. -/
def pipelineStep (db : DB) (order_id : Nat) (procCommitOk : Bool)
    (batchCommitOk : Bool) (cancelCommitOk : Bool) : PipelineResult :=
  let p := order_processor db order_id procCommitOk
  match p.published with
  | none => ⟨p.db, p.shippingInitiated, none⟩
  | some (oid, items) =>
    let r := update_inventory p.db oid items batchCommitOk cancelCommitOk
    ⟨r.db, p.shippingInitiated, some r.outcome⟩

/-- Outcome of the `cancel_order` route (`src/api/routes.py` lines 373-400). -/
inductive CancelOutcome
  | notFound
  | unauthorized
  | success
  | commitError
  | notCancellable
  deriving DecidableEq, Repr

/-- Result of one `cancel_order` request. -/
structure CancelResult where
  db : DB
  events : List StatusEvent
  outcome : CancelOutcome
  deriving DecidableEq, Repr

/-- `cancel_order(order_id)` from `src/api/routes.py`: 404 if the order is
absent; 403 if the caller is neither the owner nor an admin; if the status is
PENDING or PROCESSING, set CANCELLED, commit (rollback + 500 on failure), send
one status event; otherwise 400 with nothing changed. -/
def cancel_order (db : DB) (order_id : Nat) (caller : User) (commitOk : Bool) :
    CancelResult :=
  match findOrder db.orders order_id with
  | none => ⟨db, [], CancelOutcome.notFound⟩
  | some o =>
    if o.user_id ≠ caller.id ∧ caller.is_admin = false then
      ⟨db, [], CancelOutcome.unauthorized⟩
    else if o.status = OrderStatus.pending ∨ o.status = OrderStatus.processing then
      if commitOk then
        ⟨{ db with orders := setOrderStatus db.orders o.id OrderStatus.cancelled },
          [⟨o.user_id, o.id, OrderStatus.cancelled⟩], CancelOutcome.success⟩
      else ⟨db, [], CancelOutcome.commitError⟩
    else ⟨db, [], CancelOutcome.notCancellable⟩

/-- Outcome of the `get_order_status` route (`src/api/routes.py` lines
337-353).  The route performs no store mutation, so only the response is
modelled. -/
inductive StatusQueryResult
  | notFound
  | unauthorized
  | ok (status : OrderStatus)
  deriving DecidableEq, Repr

/-- `get_order_status(order_id)`: 404 if absent, 403 if the caller is neither
owner nor admin, otherwise the order's committed status. -/
def get_order_status (db : DB) (order_id : Nat) (caller : User) :
    StatusQueryResult :=
  match findOrder db.orders order_id with
  | none => StatusQueryResult.notFound
  | some o =>
    if o.user_id ≠ caller.id ∧ caller.is_admin = false then
      StatusQueryResult.unauthorized
    else StatusQueryResult.ok o.status

/-- The JSON body of a POST /orders request, as `process_order` reads it:
presence of the `book_id` and `items` keys (a missing key raises `KeyError`
inside `process_order`'s try block). -/
structure OrderPayload where
  book_id : Option Nat
  items : Option (List Item)
  deriving DecidableEq, Repr

/-- Result of `process_order`: committed state, events, the message published
to the `order_processing` queue, and the created order id (`none` models the
Python function returning `None`). -/
structure ProcessOrderResult where
  db : DB
  events : List StatusEvent
  published : Option (Nat × List Item)
  created : Option Nat
  deriving DecidableEq, Repr

/-- `process_order(current_user, order_data)` from
`src/services/order_processing.py` (lines 9-39): build the Order row with
status PENDING (a missing `book_id`/`items` key raises `KeyError`, caught, and
`None` is returned with nothing committed), commit it (`newId` is the
store-assigned primary key; a commit failure is caught and returns `None`),
then publish `{order_id, items}` and send the initial event.  No check at all
is made on the items list itself: empty lists and non-positive quantities are
stored as given. -/
def process_order (db : DB) (user_id : Nat) (data : OrderPayload)
    (newId : Nat) (commitOk : Bool) : ProcessOrderResult :=
  match data.book_id, data.items with
  | some bid, some its =>
    if commitOk then
      ⟨{ db with orders := db.orders ++ [⟨newId, user_id, bid, OrderStatus.pending, its⟩] },
        [⟨user_id, newId, OrderStatus.pending⟩], some (newId, its), some newId⟩
    else ⟨db, [], none, none⟩
  | _, _ => ⟨db, [], none, none⟩

/-- HTTP-level outcome of the place_order route. -/
inductive PlaceOutcome
  | noData
  | processingFailed
  | placed (order_id : Nat)
  deriving DecidableEq, Repr

/-- Result of one POST /orders request. -/
structure PlaceResult where
  db : DB
  events : List StatusEvent
  published : Option (Nat × List Item)
  outcome : PlaceOutcome
  deriving DecidableEq, Repr

/-- `place_order()` from `src/api/routes.py` (lines 313-334): `if not data`
rejects an absent (or empty) JSON body with 400 before `process_order` is
called; otherwise the request succeeds exactly when `process_order` returns an
order. -/
def place_order (db : DB) (user_id : Nat) (data : Option OrderPayload)
    (newId : Nat) (commitOk : Bool) : PlaceResult :=
  match data with
  | none => ⟨db, [], none, PlaceOutcome.noData⟩
  | some pl =>
    let r := process_order db user_id pl newId commitOk
    match r.created with
    | none => ⟨r.db, r.events, r.published, PlaceOutcome.processingFailed⟩
    | some oid => ⟨r.db, r.events, r.published, PlaceOutcome.placed oid⟩

/-! Concrete store states used to instantiate the theorems below. -/

/-- Store for C1's witness: book 1 has stock 5, book 2 has stock 2, and order 1
(user 4) asks for one copy of book 1 and a hundred copies of book 2 — the
spec's all-or-nothing example. -/
def c1DB : DB :=
  ⟨[⟨1, 5⟩, ⟨2, 2⟩], [⟨1, 4, 1, OrderStatus.processing, [⟨1, 1⟩, ⟨2, 100⟩]⟩], []⟩

/-- Store for C2: book 1 has stock 6 and order 1 carries two line items for
book 1 with quantities 3 and 4 — the spec's aggregation example. -/
def c2DB : DB :=
  ⟨[⟨1, 6⟩], [⟨1, 1, 1, OrderStatus.processing, [⟨1, 3⟩, ⟨1, 4⟩]⟩], []⟩

/-- Store for C3: book 1 has stock 0 and order 1 asks for five copies, so its
reservation must fail. -/
def c3DB : DB :=
  ⟨[⟨1, 0⟩], [⟨1, 1, 1, OrderStatus.pending, [⟨1, 5⟩]⟩], []⟩

/-- Store for C4: order 1 (user 1, book 1) is in PROCESSING and book and user
rows exist, so `ship_order` runs its full body. -/
def c4DB : DB :=
  ⟨[⟨1, 8⟩], [⟨1, 1, 1, OrderStatus.processing, [⟨1, 2⟩]⟩], [⟨1, false⟩]⟩

/-- Store for C5: order 1 is already DELIVERED. -/
def c5DB : DB :=
  ⟨[⟨1, 5⟩], [⟨1, 1, 1, OrderStatus.delivered, []⟩], [⟨1, false⟩]⟩

/-- Store for C6: book 1 has ample stock for order 1's single item, so only
the batch commit can fail. -/
def c6DB : DB :=
  ⟨[⟨1, 10⟩], [⟨1, 1, 1, OrderStatus.processing, [⟨1, 2⟩]⟩], []⟩

/-- Store for C7: there is no order with id 99. -/
def c7DB : DB :=
  ⟨[⟨1, 5⟩], [⟨2, 1, 1, OrderStatus.pending, [⟨1, 1⟩]⟩], []⟩

/-- Store for C8: user 7 owns order 1 (PENDING) and order 2 (SHIPPED). -/
def c8DB : DB :=
  ⟨[], [⟨1, 7, 1, OrderStatus.pending, []⟩, ⟨2, 7, 1, OrderStatus.shipped, []⟩],
    [⟨7, false⟩]⟩

/-- Store for C10: order 1 belongs to user 7; user 9 is not an admin. -/
def c10DB : DB :=
  ⟨[⟨1, 3⟩], [⟨1, 7, 1, OrderStatus.pending, []⟩], [⟨9, false⟩]⟩

/-! Helper lemmas shared by the claim theorems. -/

/-- A row returned by `findOrder` carries the queried id. -/
theorem findOrder_eq_id {orders : List Order} {oid : Nat} {o : Order}
    (h : findOrder orders oid = some o) : o.id = oid := by
  simpa using List.find?_some h

/-- Looking up the id whose status was just set returns the stored row with
the new status. -/
theorem findOrder_setOrderStatus (oid : Nat) (st : OrderStatus) :
    ∀ orders : List Order,
      findOrder (setOrderStatus orders oid st) oid
        = (findOrder orders oid).map (fun o => { o with status := st })
  | [] => rfl
  | o :: rest => by
    by_cases h : o.id = oid
    · simp [findOrder, setOrderStatus, h]
    · have hb : (o.id == oid) = false := by simpa using h
      have hrec := findOrder_setOrderStatus oid st rest
      unfold findOrder setOrderStatus at hrec ⊢
      rw [List.map_cons, if_neg (by simp [hb]), List.find?_cons_of_neg _ (by simp [hb]),
        List.find?_cons_of_neg _ (by simp [hb])]
      exact hrec

/-- If some line item references a missing book or overdraws its stock, the
validation loop raises (returns some exception). -/
theorem validationPass_isSome_of_bad (books : List Book) :
    ∀ items : List Item,
      (∃ it ∈ items, findBook books it.book_id = none ∨
        ∃ b, findBook books it.book_id = some b ∧ b.stock < it.quantity) →
      ∃ e, validationPass books items = some e
  | [], h => absurd h (by simp)
  | it :: rest, h => by
    match hfb : findBook books it.book_id with
    | none => exact ⟨InvException.notFound it.book_id, by simp [validationPass, hfb]⟩
    | some b =>
      by_cases hlt : b.stock < it.quantity
      · exact ⟨InvException.insufficientStock it.book_id, by simp [validationPass, hfb, hlt]⟩
      · rcases h with ⟨x, hx, hbad⟩
        rcases List.mem_cons.mp hx with rfl | hxr
        · rcases hbad with hnone | ⟨b2, hb2, hlt2⟩
          · rw [hfb] at hnone; exact absurd hnone (by simp)
          · rw [hfb] at hb2
            injection hb2 with hb2
            subst hb2
            exact absurd hlt2 hlt
        · rcases validationPass_isSome_of_bad books rest ⟨x, hxr, hbad⟩ with ⟨e, he⟩
          exact ⟨e, by simp [validationPass, hfb, hlt, he]⟩

/-! Claim theorems. -/

/-- Claim C1: all-or-nothing reservation — if any single line item of the
message references a missing book or a book whose stock is below that item's
quantity, `update_inventory` leaves every book's stock unchanged, sets the
order's status to CANCELLED (committed), emits one status event, and reports
the cancelled outcome.  Assumes the order row exists and the cancel-path
commit succeeds. -/
theorem c1_all_or_nothing (db : DB) (oid : Nat) (items : List Item) (o : Order)
    (batchCommitOk : Bool)
    (ho : findOrder db.orders oid = some o)
    (hbad : ∃ it ∈ items, findBook db.books it.book_id = none ∨
      ∃ b, findBook db.books it.book_id = some b ∧ b.stock < it.quantity) :
    (update_inventory db oid items batchCommitOk true).db.books = db.books ∧
    findOrder (update_inventory db oid items batchCommitOk true).db.orders oid
      = some { o with status := OrderStatus.cancelled } ∧
    (update_inventory db oid items batchCommitOk true).outcome
      = InvOutcome.cancelled ∧
    (update_inventory db oid items batchCommitOk true).events
      = [⟨o.user_id, o.id, OrderStatus.cancelled⟩] := by
  rcases validationPass_isSome_of_bad db.books items hbad with ⟨e, he⟩
  have hid : o.id = oid := findOrder_eq_id ho
  simp [update_inventory, ho, he, hid, findOrder_setOrderStatus]

/-- Claim C1 witness: the spec's example — book 1 stock 5 with quantity 1,
book 2 stock 2 with quantity 100 — leaves both stocks untouched and cancels
order 1 with a single status event. -/
theorem c1_all_or_nothing_witness :
    (update_inventory c1DB 1 [⟨1, 1⟩, ⟨2, 100⟩] true true).db.books = c1DB.books ∧
    findOrder (update_inventory c1DB 1 [⟨1, 1⟩, ⟨2, 100⟩] true true).db.orders 1
      = some ⟨1, 4, 1, OrderStatus.cancelled, [⟨1, 1⟩, ⟨2, 100⟩]⟩ ∧
    (update_inventory c1DB 1 [⟨1, 1⟩, ⟨2, 100⟩] true true).outcome
      = InvOutcome.cancelled ∧
    (update_inventory c1DB 1 [⟨1, 1⟩, ⟨2, 100⟩] true true).events
      = [⟨4, 1, OrderStatus.cancelled⟩] :=
  c1_all_or_nothing c1DB 1 [⟨1, 1⟩, ⟨2, 100⟩]
    ⟨1, 4, 1, OrderStatus.processing, [⟨1, 1⟩, ⟨2, 100⟩]⟩ true (by decide)
    ⟨⟨2, 100⟩, by decide, Or.inr ⟨⟨2, 2⟩, by decide, by decide⟩⟩

/-- Claim C2 counterexample: two line items for book 1 with quantities 3 and 4
against stock 6 are NOT rejected — the reservation succeeds, both deductions
are committed (stock 6 - 3 - 4 = -1), and the order stays PROCESSING, contrary
to the claimed aggregation check (which would cancel and deduct nothing). -/
theorem c2_counterexample :
    (update_inventory c2DB 1 [⟨1, 3⟩, ⟨1, 4⟩] true true).outcome
      = InvOutcome.ok ∧
    (update_inventory c2DB 1 [⟨1, 3⟩, ⟨1, 4⟩] true true).db.books = [⟨1, -1⟩] ∧
    findOrder (update_inventory c2DB 1 [⟨1, 3⟩, ⟨1, 4⟩] true true).db.orders 1
      = some ⟨1, 1, 1, OrderStatus.processing, [⟨1, 3⟩, ⟨1, 4⟩]⟩ := by
  decide

/-- Claim C2 as amended: the validation loop compares each line item's
quantity to the book's un-deducted stock separately, so whenever each of two
duplicate items individually fits the stock (q1 ≤ s and q2 ≤ s), the
reservation succeeds, the order is committed as PROCESSING, and the book's
stock drops by the aggregate demand s - q1 - q2 — negative whenever
q1 + q2 > s. -/
theorem c2_no_aggregation (s q1 q2 : Int) (oid uid bid : Nat)
    (st : OrderStatus) (us : List User)
    (h1 : q1 ≤ s) (h2 : q2 ≤ s) :
    update_inventory
        ⟨[⟨bid, s⟩], [⟨oid, uid, bid, st, [⟨bid, q1⟩, ⟨bid, q2⟩]⟩], us⟩
        oid [⟨bid, q1⟩, ⟨bid, q2⟩] true true
      = ⟨⟨[⟨bid, s - q1 - q2⟩],
          [⟨oid, uid, bid, OrderStatus.processing, [⟨bid, q1⟩, ⟨bid, q2⟩]⟩], us⟩,
         [⟨uid, oid, OrderStatus.processing⟩], InvOutcome.ok⟩ := by
  have hb1 : ¬ (s < q1) := not_lt.mpr h1
  have hb2 : ¬ (s < q2) := not_lt.mpr h2
  simp [update_inventory, findOrder, findBook, validationPass, deductionPass,
    deductBook, setOrderStatus, hb1, hb2]

/-- Claim C2 amended witness: the spec's own numbers, stock 6 with quantities
3 and 4. -/
theorem c2_no_aggregation_witness :
    update_inventory
        ⟨[⟨1, 6⟩], [⟨1, 1, 1, OrderStatus.processing, [⟨1, 3⟩, ⟨1, 4⟩]⟩], []⟩
        1 [⟨1, 3⟩, ⟨1, 4⟩] true true
      = ⟨⟨[⟨1, (6 : Int) - 3 - 4⟩],
          [⟨1, 1, 1, OrderStatus.processing, [⟨1, 3⟩, ⟨1, 4⟩]⟩], []⟩,
         [⟨1, 1, OrderStatus.processing⟩], InvOutcome.ok⟩ :=
  c2_no_aggregation 6 3 4 1 1 1 OrderStatus.processing [] (by decide) (by decide)

/-- Claim C3 counterexample: for order 1 (stock 0, quantity 5) the pipeline
launches shipping even though the reservation fails and the order is
CANCELLED — shipping is not gated on reservation success. -/
theorem c3_counterexample :
    (pipelineStep c3DB 1 true true true).shippingInitiated = true ∧
    (pipelineStep c3DB 1 true true true).invOutcome = some InvOutcome.cancelled ∧
    findOrder (pipelineStep c3DB 1 true true true).db.orders 1
      = some ⟨1, 1, 1, OrderStatus.cancelled, [⟨1, 5⟩]⟩ := by
  decide

/-- Claim C3 as amended: `order_processor` calls `initiate_shipping`
unconditionally, immediately after publishing the reservation message and
before the reservation is consumed, so whenever the order row exists (and the
processor's own commit succeeds) shipping is launched regardless of the later
reservation outcome; `update_inventory` itself never invokes shipping. -/
theorem c3_shipping_unconditional (db : DB) (oid : Nat) (o : Order)
    (batchCommitOk cancelCommitOk : Bool)
    (ho : findOrder db.orders oid = some o) :
    (order_processor db oid true).shippingInitiated = true ∧
    (order_processor db oid true).published = some (o.id, o.items) ∧
    (pipelineStep db oid true batchCommitOk cancelCommitOk).shippingInitiated
      = true := by
  simp [order_processor, pipelineStep, ho]

/-- Claim C3 amended witness: instantiated at the failing-reservation store
`c3DB`. -/
theorem c3_shipping_unconditional_witness :
    (order_processor c3DB 1 true).shippingInitiated = true ∧
    (order_processor c3DB 1 true).published = some (1, [⟨1, 5⟩]) ∧
    (pipelineStep c3DB 1 true true true).shippingInitiated = true :=
  c3_shipping_unconditional c3DB 1 ⟨1, 1, 1, OrderStatus.pending, [⟨1, 5⟩]⟩
    true true (by decide)

/-- Claim C4: whatever boolean `send_book_email` returned — `deliveryOk` is
quantified, and in particular may be `true` — `ship_order` finishes with the
order CANCELLED, because the branch compares the function object to `True`
instead of the call's result.  The order is indeed never left at PROCESSING or
SHIPPED, both results are committed and two events (SHIPPED then the final
CANCELLED) are emitted, but a successful delivery never yields DELIVERED. -/
theorem c4_delivery_outcome_ignored (db : DB) (oid : Nat) (o : Order)
    (deliveryOk : Bool) (bk : Book) (u : User)
    (ho : findOrder db.orders oid = some o)
    (hb : findBook db.books o.book_id = some bk)
    (hu : findUser db.users o.user_id = some u) :
    findOrder (ship_order db oid deliveryOk true true).db.orders oid
      = some { o with status := OrderStatus.cancelled } ∧
    (ship_order db oid deliveryOk true true).events
      = [⟨o.user_id, o.id, OrderStatus.shipped⟩,
         ⟨o.user_id, o.id, OrderStatus.cancelled⟩] := by
  have hid : o.id = oid := findOrder_eq_id ho
  simp [ship_order, ho, hb, hu, send_book_email_eq_True, hid,
    findOrder_setOrderStatus]

/-- Claim C4 witness: in `c4DB`, with the delivery call returning success
(`deliveryOk = true`), order 1 still ends CANCELLED after the SHIPPED commit.
This is the concrete failing input of the code bug. -/
theorem c4_delivery_outcome_ignored_witness :
    findOrder (ship_order c4DB 1 true true true).db.orders 1
      = some ⟨1, 1, 1, OrderStatus.cancelled, [⟨1, 2⟩]⟩ ∧
    (ship_order c4DB 1 true true true).events
      = [⟨1, 1, OrderStatus.shipped⟩, ⟨1, 1, OrderStatus.cancelled⟩] :=
  c4_delivery_outcome_ignored c4DB 1 ⟨1, 1, 1, OrderStatus.processing, [⟨1, 2⟩]⟩
    true ⟨1, 8⟩ ⟨1, false⟩ (by decide) (by decide) (by decide)

/-- Claim C5 counterexample: `ship_order` on order 1, which is already
DELIVERED in `c5DB`, commits it to SHIPPED (with a status event) and then to
CANCELLED — a pipeline mutator changes the status of a DELIVERED order, so the
transition paths are not monotonic. -/
theorem c5_counterexample :
    (ship_order c5DB 1 true true true).db.orders
      = [⟨1, 1, 1, OrderStatus.cancelled, []⟩] ∧
    (ship_order c5DB 1 true true true).events
      = [⟨1, 1, OrderStatus.shipped⟩, ⟨1, 1, OrderStatus.cancelled⟩] := by
  decide

/-- Claim C5 as amended: only `cancel_order` consults the current status
before writing (and therefore never changes a CANCELLED or DELIVERED order);
the pipeline mutators assign statuses unconditionally — `order_processor`
moves even a CANCELLED or DELIVERED order back to PROCESSING, and `ship_order`
re-ships it (see the counterexample). -/
theorem c5_no_status_guard_in_pipeline (db : DB) (oid : Nat) (o : Order)
    (caller : User) (commitOk : Bool)
    (ho : findOrder db.orders oid = some o)
    (hadmin : caller.is_admin = true)
    (hterm : o.status = OrderStatus.cancelled ∨ o.status = OrderStatus.delivered) :
    cancel_order db oid caller commitOk = ⟨db, [], CancelOutcome.notCancellable⟩ ∧
    findOrder (order_processor db oid true).db.orders oid
      = some { o with status := OrderStatus.processing } := by
  have hid : o.id = oid := findOrder_eq_id ho
  have hnp : ¬ (o.status = OrderStatus.pending ∨ o.status = OrderStatus.processing) := by
    rcases hterm with h | h <;> simp [h]
  constructor
  · simp [cancel_order, ho, hadmin, hnp]
  · simp [order_processor, ho, hid, findOrder_setOrderStatus]

/-- Claim C5 amended witness: the DELIVERED order 1 of `c5DB` cannot be
cancelled through the API, yet `order_processor` silently rewrites it to
PROCESSING. -/
theorem c5_no_status_guard_in_pipeline_witness :
    cancel_order c5DB 1 ⟨2, true⟩ true = ⟨c5DB, [], CancelOutcome.notCancellable⟩ ∧
    findOrder (order_processor c5DB 1 true).db.orders 1
      = some ⟨1, 1, 1, OrderStatus.processing, []⟩ :=
  c5_no_status_guard_in_pipeline c5DB 1 ⟨1, 1, 1, OrderStatus.delivered, []⟩
    ⟨2, true⟩ true (by decide) rfl (Or.inr rfl)

/-- Claim C6 counterexample: in `c6DB` (ample stock) a failing batch commit
makes `update_inventory` roll back and return a 500 response — the store is
left exactly as it was (order 1 still PROCESSING, not CANCELLED) and no status
event is emitted, contrary to the claimed cancellation handling. -/
theorem c6_counterexample :
    update_inventory c6DB 1 [⟨1, 2⟩] false true
      = ⟨c6DB, [], InvOutcome.commitError⟩ := by
  decide

/-- Claim C6 as amended: when the batch commit of the deductions and the
status fails, all deductions are rolled back and `update_inventory` returns an
error response immediately; the order keeps its previously committed status
(it is NOT set to CANCELLED) and no status event is emitted. -/
theorem c6_commit_failure_returns_early (db : DB) (oid : Nat)
    (items : List Item) (o : Order) (cancelCommitOk : Bool)
    (ho : findOrder db.orders oid = some o)
    (hval : validationPass db.books items = none) :
    update_inventory db oid items false cancelCommitOk
      = ⟨db, [], InvOutcome.commitError⟩ := by
  simp [update_inventory, ho, hval]

/-- Claim C6 amended witness: instantiated at `c6DB`. -/
theorem c6_commit_failure_returns_early_witness :
    update_inventory c6DB 1 [⟨1, 2⟩] false false
      = ⟨c6DB, [], InvOutcome.commitError⟩ :=
  c6_commit_failure_returns_early c6DB 1 [⟨1, 2⟩]
    ⟨1, 1, 1, OrderStatus.processing, [⟨1, 2⟩]⟩ false (by decide) (by decide)

/-- Claim C7 counterexample: `c7DB` has no order 99, and a message for it
makes both consumers raise (`AttributeError` on the `None` order) instead of
logging and dropping — the exception escapes the consumer callback. -/
theorem c7_counterexample :
    (order_processor c7DB 99 true).raised = true ∧
    (update_inventory c7DB 99 [⟨1, 1⟩] true true).outcome = InvOutcome.raised := by
  decide

/-- Claim C7 as amended: a consumed message whose order_id matches no order
leaves every Book row and Order row unchanged, emits no event, and publishes
nothing onward — but it is not a logged no-op: the unguarded attribute access
on the `None` order raises an `AttributeError` that escapes the consumer
callback (terminating the consumer loop, where the loop's outer handler logs
it). -/
theorem c7_absent_order_raises (db : DB) (oid : Nat) (items : List Item)
    (procCommitOk batchCommitOk cancelCommitOk : Bool)
    (ho : findOrder db.orders oid = none) :
    order_processor db oid procCommitOk = ⟨db, [], none, false, true⟩ ∧
    update_inventory db oid items batchCommitOk cancelCommitOk
      = ⟨db, [], InvOutcome.raised⟩ := by
  simp [order_processor, update_inventory, ho]

/-- Claim C7 amended witness: instantiated at `c7DB` and the absent id 99. -/
theorem c7_absent_order_raises_witness :
    order_processor c7DB 99 false = ⟨c7DB, [], none, false, true⟩ ∧
    update_inventory c7DB 99 [] true true = ⟨c7DB, [], InvOutcome.raised⟩ :=
  c7_absent_order_raises c7DB 99 [] false true true (by decide)

/-- Claim C8: for an authorized caller (owner or admin) with a working store,
`cancel_order` succeeds exactly when the order's status is PENDING or
PROCESSING, in which case the order is committed as CANCELLED and exactly one
status event is emitted; on a SHIPPED or DELIVERED order it returns an error
and changes nothing. -/
theorem c8_cancel_guard (db : DB) (oid : Nat) (o : Order) (caller : User)
    (ho : findOrder db.orders oid = some o)
    (hauth : o.user_id = caller.id ∨ caller.is_admin = true) :
    ((cancel_order db oid caller true).outcome = CancelOutcome.success ↔
      o.status = OrderStatus.pending ∨ o.status = OrderStatus.processing) ∧
    (o.status = OrderStatus.pending ∨ o.status = OrderStatus.processing →
      findOrder (cancel_order db oid caller true).db.orders oid
        = some { o with status := OrderStatus.cancelled } ∧
      (cancel_order db oid caller true).events
        = [⟨o.user_id, o.id, OrderStatus.cancelled⟩]) ∧
    (o.status = OrderStatus.shipped ∨ o.status = OrderStatus.delivered →
      cancel_order db oid caller true = ⟨db, [], CancelOutcome.notCancellable⟩) := by
  have hid : o.id = oid := findOrder_eq_id ho
  have hnu : ¬ (o.user_id ≠ caller.id ∧ caller.is_admin = false) := by
    rcases hauth with h | h <;> simp [h]
  have hfind : findOrder (setOrderStatus db.orders o.id OrderStatus.cancelled) oid
      = some { o with status := OrderStatus.cancelled } := by
    simp [hid, findOrder_setOrderStatus, ho]
  cases hos : o.status <;>
    simp [cancel_order, ho, hnu, hos, hfind]

/-- Claim C8 witness: user 7 cancels their PENDING order 1 successfully, while
their SHIPPED order 2 is rejected untouched. -/
theorem c8_cancel_guard_witness :
    (cancel_order c8DB 1 ⟨7, false⟩ true).outcome = CancelOutcome.success ∧
    cancel_order c8DB 2 ⟨7, false⟩ true = ⟨c8DB, [], CancelOutcome.notCancellable⟩ :=
  ⟨(c8_cancel_guard c8DB 1 ⟨1, 7, 1, OrderStatus.pending, []⟩ ⟨7, false⟩
      (by decide) (Or.inl rfl)).1.mpr (Or.inl rfl),
   (c8_cancel_guard c8DB 2 ⟨2, 7, 1, OrderStatus.shipped, []⟩ ⟨7, false⟩
      (by decide) (Or.inl rfl)).2.2 (Or.inl rfl)⟩

/-- Claim C9 counterexample: a payload with `items: []` is accepted by
`place_order` — an Order row is created in PENDING, the empty-items message is
published, and the request reports success, contrary to the claimed
`ValidationError` on an empty items list. -/
theorem c9_counterexample :
    (place_order ⟨[], [], []⟩ 7 (some ⟨some 1, some []⟩) 1 true).outcome
      = PlaceOutcome.placed 1 ∧
    (place_order ⟨[], [], []⟩ 7 (some ⟨some 1, some []⟩) 1 true).db.orders
      = [⟨1, 7, 1, OrderStatus.pending, []⟩] ∧
    (place_order ⟨[], [], []⟩ 7 (some ⟨some 1, some []⟩) 1 true).published
      = some (1, []) := by
  decide

/-- Claim C9 as amended: a request with no JSON body fails before any
processing, and a payload missing the `book_id` or `items` key fails inside
`process_order` (no Order row, nothing published, no event); but the items
list itself is never validated — any present list, including the empty one and
ones with non-positive quantities, yields a PENDING order that is committed
and published. -/
theorem c9_only_presence_validated (db : DB) (user_id newId : Nat)
    (data : Option OrderPayload) (commitOk : Bool) :
    (data = none → place_order db user_id data newId commitOk
      = ⟨db, [], none, PlaceOutcome.noData⟩) ∧
    (∀ pl, data = some pl → (pl.book_id = none ∨ pl.items = none) →
      place_order db user_id data newId commitOk
        = ⟨db, [], none, PlaceOutcome.processingFailed⟩) ∧
    (∀ pl bid its, data = some pl → pl.book_id = some bid → pl.items = some its →
      place_order db user_id data newId true
        = ⟨{ db with orders := db.orders ++ [⟨newId, user_id, bid, OrderStatus.pending, its⟩] },
           [⟨user_id, newId, OrderStatus.pending⟩], some (newId, its),
           PlaceOutcome.placed newId⟩) := by
  refine ⟨?_, ?_, ?_⟩
  · rintro rfl; rfl
  · rintro ⟨b, i⟩ rfl hmiss
    rcases hmiss with rfl | rfl
    · cases i <;> rfl
    · cases b <;> rfl
  · rintro ⟨b, i⟩ bid its rfl hb hi
    cases hb; cases hi
    simp [place_order, process_order]

/-- Claim C9 amended witness: a missing body and a missing `book_id` key are
both rejected with nothing stored; the empty-items acceptance is the
counterexample. -/
theorem c9_only_presence_validated_witness :
    place_order ⟨[], [], []⟩ 7 none 1 true
      = ⟨⟨[], [], []⟩, [], none, PlaceOutcome.noData⟩ ∧
    place_order ⟨[], [], []⟩ 7 (some ⟨none, some [⟨1, 1⟩]⟩) 1 true
      = ⟨⟨[], [], []⟩, [], none, PlaceOutcome.processingFailed⟩ :=
  ⟨(c9_only_presence_validated ⟨[], [], []⟩ 7 1 none true).1 rfl,
   (c9_only_presence_validated ⟨[], [], []⟩ 7 1 (some ⟨none, some [⟨1, 1⟩]⟩) true).2.1
      ⟨none, some [⟨1, 1⟩]⟩ rfl (Or.inl rfl)⟩

/-- Claim C10: a caller who is neither the order's owner nor an admin gets
`Unauthorized` from both `get_order_status` and `cancel_order`, with the store
(order statuses and book stocks) left untouched — `get_order_status` performs
no writes at all and `cancel_order` returns before any mutation. -/
theorem c10_owner_or_admin_only (db : DB) (oid : Nat) (o : Order)
    (caller : User) (commitOk : Bool)
    (ho : findOrder db.orders oid = some o)
    (hnotowner : o.user_id ≠ caller.id)
    (hnotadmin : caller.is_admin = false) :
    get_order_status db oid caller = StatusQueryResult.unauthorized ∧
    cancel_order db oid caller commitOk = ⟨db, [], CancelOutcome.unauthorized⟩ := by
  simp [get_order_status, cancel_order, ho, hnotowner, hnotadmin]

/-- Claim C10 witness: user 9 (not owner, not admin) is refused on order 1 of
`c10DB` and nothing changes. -/
theorem c10_owner_or_admin_only_witness :
    get_order_status c10DB 1 ⟨9, false⟩ = StatusQueryResult.unauthorized ∧
    cancel_order c10DB 1 ⟨9, false⟩ true
      = ⟨c10DB, [], CancelOutcome.unauthorized⟩ :=
  c10_owner_or_admin_only c10DB 1 ⟨1, 7, 1, OrderStatus.pending, []⟩ ⟨9, false⟩
    true (by decide) (by decide) rfl

end Bookstore
